import Mathlib

/-
Verification of the third-auth repository: a shallow embedding of the
handler registry (src/core.ts), the Apple public-key / client-secret
manager (src/handlers/apple-auth.handler.ts), and the per-provider
credential validators (Google, X, LinkedIn, SnapChat), together with
theorems settling the frozen claims about them.

Network calls, JWT signature verification and JSON decoding are boundary
capabilities; each embedded operation takes an explicit environment value
describing the outcome of those capabilities (HTTP status + parsed body,
or a transport error; a verified payload, or a verification failure) and
is otherwise a faithful translation of the handler's control flow,
including its try/catch wrapping of errors.
-/

/-- JavaScript truthiness of a string: falsy iff empty. -/
def truthyStr (s : String) : Bool := s != ""

/-- JavaScript truthiness of an optional boolean claim: truthy iff present and true. -/
def truthyOptBool : Option Bool → Bool
  | some b => b
  | none => false

/-- JavaScript truthiness of an optional string claim: truthy iff present and non-empty. -/
def truthyOptStr : Option String → Bool
  | some s => s != ""
  | none => false

/-- Whether one character list starts with another (models substring search step). -/
def listStartsWith : List Char → List Char → Bool
  | [], _ => true
  | _ :: _, [] => false
  | a :: as, b :: bs => a == b && listStartsWith as bs

/-- Whether the needle occurs as a contiguous segment of the hay. -/
def listHasSegment (needle : List Char) : List Char → Bool
  | [] => listStartsWith needle []
  | c :: t => listStartsWith needle (c :: t) || listHasSegment needle t

/-- JavaScript String.prototype.includes: substring containment. -/
def jsIncludes (hay needle : String) : Bool := listHasSegment needle.data hay.data

/-- The handlers accept HTTP statuses 200, 201, 204 (the literal
[200, 201, 204].includes(status) check in every handler). -/
def statusOk (s : Nat) : Bool := s == 200 || s == 201 || s == 204

/-- Outcome of an HTTP request: a response with status, parsed body and raw
body text, or a transport-level failure (axios throwing). -/
inductive HttpOutcome (β : Type) where
  | response (status : Nat) (body : β) (raw : String)
  | transportError
deriving DecidableEq

/- ---------------------------------------------------------------------
Handler registry (src/core.ts, class ThirdAuth)
--------------------------------------------------------------------- -/

/-- The closed set of supported providers (enum ThirdPartyType). -/
inductive ThirdPartyType where
  | Apple
  | Google
  | X
  | LinkedIn
  | SnapChat
deriving DecidableEq

/-- A registered credential as the registry sees it: the registry reads only
clientId; the remaining provider-specific fields are opaque material. -/
structure AuthCredential where
  clientId : String
  material : String
deriving DecidableEq

/-- A validator instance; hid is the allocation identity (two handlers are
the same JS object reference iff they have the same hid). -/
structure Handler where
  hid : Nat
  credential : AuthCredential
deriving DecidableEq

/-- JS Map.get on an association list (first binding wins). -/
def jsMapGet {α : Type} (m : List (String × α)) (k : String) : Option α :=
  match m with
  | [] => none
  | (k0, v) :: t => if k0 == k then some v else jsMapGet t k

/-- JS Map.set on an association list: replace the existing binding in place,
or append a new one. -/
def jsMapSet {α : Type} (m : List (String × α)) (k : String) (v : α) : List (String × α) :=
  match m with
  | [] => [(k, v)]
  | (k0, v0) :: t => if k0 == k then (k, v) :: t else (k0, v0) :: jsMapSet t k v

/-- The registry's process-wide state: one map per provider type
(static fields appleHandlers .. snapChatHandlers) plus the allocator for
handler identities. -/
structure RegistryState where
  appleHandlers : List (String × Handler)
  googleHandlers : List (String × Handler)
  xHandlers : List (String × Handler)
  linkedInHandlers : List (String × Handler)
  snapChatHandlers : List (String × Handler)
  nextId : Nat
deriving DecidableEq

/-- Registry error: provider-specific asynchronous initialization
(Apple: key fetch + secret generation; Google: capability check) failed. -/
inductive RegistryError where
  | initFailed
deriving DecidableEq

/-- ThirdAuth.registerHandler: look up the handler for (providerType,
credential.clientId); if found return it unchanged, otherwise construct a
new handler, run its initialization (whose success is the initOk input for
Apple and Google; X, LinkedIn and SnapChat have none), store it and return
it. -/
def registerHandler (s : RegistryState) (credential : AuthCredential)
    (thirdPartyType : ThirdPartyType) (initOk : Bool) :
    Except RegistryError (Handler × RegistryState) :=
  match thirdPartyType with
  | .Apple =>
    match jsMapGet s.appleHandlers credential.clientId with
    | some foundHandler => .ok (foundHandler, s)
    | none =>
      if initOk then
        let handler : Handler := ⟨s.nextId, credential⟩
        .ok (handler, { s with
          appleHandlers := jsMapSet s.appleHandlers credential.clientId handler,
          nextId := s.nextId + 1 })
      else .error .initFailed
  | .Google =>
    match jsMapGet s.googleHandlers credential.clientId with
    | some foundHandler => .ok (foundHandler, s)
    | none =>
      if initOk then
        let handler : Handler := ⟨s.nextId, credential⟩
        .ok (handler, { s with
          googleHandlers := jsMapSet s.googleHandlers credential.clientId handler,
          nextId := s.nextId + 1 })
      else .error .initFailed
  | .X =>
    match jsMapGet s.xHandlers credential.clientId with
    | some foundHandler => .ok (foundHandler, s)
    | none =>
      let handler : Handler := ⟨s.nextId, credential⟩
      .ok (handler, { s with
        xHandlers := jsMapSet s.xHandlers credential.clientId handler,
        nextId := s.nextId + 1 })
  | .LinkedIn =>
    match jsMapGet s.linkedInHandlers credential.clientId with
    | some foundHandler => .ok (foundHandler, s)
    | none =>
      let handler : Handler := ⟨s.nextId, credential⟩
      .ok (handler, { s with
        linkedInHandlers := jsMapSet s.linkedInHandlers credential.clientId handler,
        nextId := s.nextId + 1 })
  | .SnapChat =>
    match jsMapGet s.snapChatHandlers credential.clientId with
    | some foundHandler => .ok (foundHandler, s)
    | none =>
      let handler : Handler := ⟨s.nextId, credential⟩
      .ok (handler, { s with
        snapChatHandlers := jsMapSet s.snapChatHandlers credential.clientId handler,
        nextId := s.nextId + 1 })

theorem jsMapGet_jsMapSet_self {α : Type} (m : List (String × α)) (k : String) (v : α) :
    jsMapGet (jsMapSet m k v) k = some v := by
  induction m with
  | nil => simp [jsMapSet, jsMapGet]
  | cons hd t ih =>
    obtain ⟨k0, v0⟩ := hd
    by_cases h : k0 == k
    · simp [jsMapSet, jsMapGet, h]
    · simp only [jsMapSet, jsMapGet, h, if_false]
      simpa [jsMapGet, h] using ih

/-- Claim C1: for every provider type and credentials, once registerHandler
has stored a validator for (providerType, clientId), a second registerHandler
call with the same provider type and the same clientId — with arbitrary
(possibly different) credentials and arbitrary initialization outcome —
returns the very instance stored by the first call and leaves the registry
state unchanged, so the first registration wins and at most one instance
exists per (provider, clientId) pair. -/
theorem registerHandler_idempotent
    (s : RegistryState) (c c2 : AuthCredential) (ty : ThirdPartyType)
    (ok1 ok2 : Bool) (h : Handler) (s2 : RegistryState)
    (hreg : registerHandler s c ty ok1 = .ok (h, s2))
    (hcid : c2.clientId = c.clientId) :
    registerHandler s2 c2 ty ok2 = .ok (h, s2) := by
  cases ty
  case Apple =>
    simp only [registerHandler] at hreg ⊢
    rw [hcid]
    rcases hfind : jsMapGet s.appleHandlers c.clientId with _ | fh
    · rw [hfind] at hreg
      rcases ok1 with _ | _
      · simp at hreg
      · simp only [if_true] at hreg
        rw [Except.ok.injEq, Prod.mk.injEq] at hreg
        obtain ⟨hh, hs⟩ := hreg
        subst hh
        subst hs
        simp [jsMapGet_jsMapSet_self]
    · rw [hfind] at hreg
      rw [Except.ok.injEq, Prod.mk.injEq] at hreg
      obtain ⟨hh, hs⟩ := hreg
      subst hh
      subst hs
      simp [hfind]
  case Google =>
    simp only [registerHandler] at hreg ⊢
    rw [hcid]
    rcases hfind : jsMapGet s.googleHandlers c.clientId with _ | fh
    · rw [hfind] at hreg
      rcases ok1 with _ | _
      · simp at hreg
      · simp only [if_true] at hreg
        rw [Except.ok.injEq, Prod.mk.injEq] at hreg
        obtain ⟨hh, hs⟩ := hreg
        subst hh
        subst hs
        simp [jsMapGet_jsMapSet_self]
    · rw [hfind] at hreg
      rw [Except.ok.injEq, Prod.mk.injEq] at hreg
      obtain ⟨hh, hs⟩ := hreg
      subst hh
      subst hs
      simp [hfind]
  case X =>
    simp only [registerHandler] at hreg ⊢
    rw [hcid]
    rcases hfind : jsMapGet s.xHandlers c.clientId with _ | fh
    · rw [hfind] at hreg
      rw [Except.ok.injEq, Prod.mk.injEq] at hreg
      obtain ⟨hh, hs⟩ := hreg
      subst hh
      subst hs
      simp [jsMapGet_jsMapSet_self]
    · rw [hfind] at hreg
      rw [Except.ok.injEq, Prod.mk.injEq] at hreg
      obtain ⟨hh, hs⟩ := hreg
      subst hh
      subst hs
      simp [hfind]
  case LinkedIn =>
    simp only [registerHandler] at hreg ⊢
    rw [hcid]
    rcases hfind : jsMapGet s.linkedInHandlers c.clientId with _ | fh
    · rw [hfind] at hreg
      rw [Except.ok.injEq, Prod.mk.injEq] at hreg
      obtain ⟨hh, hs⟩ := hreg
      subst hh
      subst hs
      simp [jsMapGet_jsMapSet_self]
    · rw [hfind] at hreg
      rw [Except.ok.injEq, Prod.mk.injEq] at hreg
      obtain ⟨hh, hs⟩ := hreg
      subst hh
      subst hs
      simp [hfind]
  case SnapChat =>
    simp only [registerHandler] at hreg ⊢
    rw [hcid]
    rcases hfind : jsMapGet s.snapChatHandlers c.clientId with _ | fh
    · rw [hfind] at hreg
      rw [Except.ok.injEq, Prod.mk.injEq] at hreg
      obtain ⟨hh, hs⟩ := hreg
      subst hh
      subst hs
      simp [jsMapGet_jsMapSet_self]
    · rw [hfind] at hreg
      rw [Except.ok.injEq, Prod.mk.injEq] at hreg
      obtain ⟨hh, hs⟩ := hreg
      subst hh
      subst hs
      simp [hfind]

/-- Empty registry, as at process start. -/
def regDemoState0 : RegistryState := ⟨[], [], [], [], [], 0⟩

/-- First registration credential. -/
def regDemoCredA : AuthCredential := ⟨"client-1", "material-1"⟩

/-- Second registration credential: same clientId, different material. -/
def regDemoCredB : AuthCredential := ⟨"client-1", "material-2"⟩

/-- The instance the first registration stores. -/
def regDemoHandler : Handler := ⟨0, regDemoCredA⟩

/-- Registry state after the first registration. -/
def regDemoState1 : RegistryState :=
  ⟨[("client-1", regDemoHandler)], [], [], [], [], 1⟩

theorem registerHandler_idempotent_witness :
    registerHandler regDemoState0 regDemoCredA ThirdPartyType.Apple true
      = Except.ok (regDemoHandler, regDemoState1) ∧
    registerHandler regDemoState1 regDemoCredB ThirdPartyType.Apple false
      = Except.ok (regDemoHandler, regDemoState1) :=
  ⟨rfl,
   registerHandler_idempotent regDemoState0 regDemoCredA regDemoCredB
     ThirdPartyType.Apple true false regDemoHandler regDemoState1 rfl rfl⟩

/- ---------------------------------------------------------------------
Apple key / secret manager (src/handlers/apple-auth.handler.ts)
--------------------------------------------------------------------- -/

/-- A JSON Web Key as cached by AppleAuthHandler.publicKeys: its key id and
the remaining key material. -/
structure JWK where
  kid : String
  material : String
deriving DecidableEq

/-- Outcome of the HTTPS GET against Apple's JWKS endpoint: a response with
its status and parsed keys array, or a transport failure. -/
inductive KeysFetchOutcome where
  | response (status : Nat) (keys : List JWK)
  | transportError
deriving DecidableEq

/-- An AppleAuthError as observable after the handler's catch blocks: every
catch in the Apple handler rethrows a fresh AppleAuthError carrying only a
message, so the message is the whole observable error. -/
structure AppleError where
  message : String
deriving DecidableEq

/-- AppleAuthHandler.updatePublicKeys: fetch the JWKS; on a 200/201/204
response with a non-empty keys array, overwrite the static publicKeys cache
with the fetched array and return it; otherwise (non-success status, empty
keys array, or transport error) the inner throw is caught by the method's
own catch, which rethrows the fetch-failure error, leaving the cache as it
was. Returns (result, new cache). -/
def updatePublicKeys (o : KeysFetchOutcome) (cache : List JWK) :
    Except AppleError (List JWK) × List JWK :=
  match o with
  | .transportError => (.error ⟨"Failed to fetch Apple public keys."⟩, cache)
  | .response status keys =>
    if statusOk status then
      if keys.isEmpty then (.error ⟨"Failed to fetch Apple public keys."⟩, cache)
      else (.ok keys, keys)
    else (.error ⟨"Failed to fetch Apple public keys."⟩, cache)

/-- AppleAuthHandler.getPublicKey: if the cache is empty, refresh once (the
first element of the fetch environment); then look the kid up; on a miss,
refresh exactly once more and look it up again, failing with the
key-not-found error if it is still absent. Returns (result, new cache,
number of refresh attempts performed). -/
def getPublicKey (kid : String) (cache : List JWK)
    (fetches : Nat → KeysFetchOutcome) :
    Except AppleError JWK × List JWK × Nat :=
  let step1 : Except AppleError (List JWK) × Nat :=
    if cache.isEmpty then
      match updatePublicKeys (fetches 0) cache with
      | (.error e, _) => (.error e, 1)
      | (.ok _, c) => (.ok c, 1)
    else (.ok cache, 0)
  match step1 with
  | (.error e, n) => (.error e, cache, n)
  | (.ok c1, n) =>
    match c1.find? (fun key => key.kid == kid) with
    | some foundKey => (.ok foundKey, c1, n)
    | none =>
      match updatePublicKeys (fetches n) c1 with
      | (.error e, c2) => (.error e, c2, n + 1)
      | (.ok _, c2) =>
        match c2.find? (fun key => key.kid == kid) with
        | some foundKeySecondAttempt => (.ok foundKeySecondAttempt, c2, n + 1)
        | none =>
          (.error ⟨"Public key not found for the provided Key ID."⟩, c2, n + 1)

theorem updatePublicKeys_ok (o : KeysFetchOutcome) (c ks : List JWK)
    (h : (updatePublicKeys o c).1 = .ok ks) :
    updatePublicKeys o c = (.ok ks, ks) ∧ ks ≠ [] := by
  cases o with
  | transportError => simp [updatePublicKeys] at h
  | response status keys =>
    by_cases hs : statusOk status
    · by_cases he : keys.isEmpty
      · simp [updatePublicKeys, hs, he] at h
      · simp only [updatePublicKeys, hs, he, if_true, if_false,
          Bool.not_eq_true] at h ⊢
        have hk : keys = ks := by simpa using h
        subst hk
        refine ⟨rfl, ?_⟩
        cases keys with
        | nil => simp at he
        | cons a t => simp
    · simp [updatePublicKeys, hs] at h

/-- Claim C6: updatePublicKeys leaves the cached key set intact whenever the
refresh fails (transport error, non-success status, or empty key list), and
on success replaces the cache as a whole with the fetched key list, which is
never empty. -/
theorem updatePublicKeys_cache_integrity (o : KeysFetchOutcome) (cache : List JWK) :
    (∀ e, (updatePublicKeys o cache).1 = .error e → (updatePublicKeys o cache).2 = cache) ∧
    (∀ ks, (updatePublicKeys o cache).1 = .ok ks → (updatePublicKeys o cache).2 = ks ∧ ks ≠ []) := by
  constructor
  · intro e he
    cases o with
    | transportError => rfl
    | response status keys =>
      by_cases hs : statusOk status
      · by_cases hk : keys.isEmpty
        · simp [updatePublicKeys, hs, hk]
        · simp [updatePublicKeys, hs, hk] at he
      · simp [updatePublicKeys, hs]
  · intro ks hks
    have h := updatePublicKeys_ok o cache ks hks
    exact ⟨by rw [h.1], h.2⟩

theorem updatePublicKeys_cache_integrity_witness :
    (updatePublicKeys KeysFetchOutcome.transportError [⟨"k1", "m1"⟩]).2 = [⟨"k1", "m1"⟩] :=
  (updatePublicKeys_cache_integrity KeysFetchOutcome.transportError [⟨"k1", "m1"⟩]).1
    ⟨"Failed to fetch Apple public keys."⟩ rfl

/-- Claim C5: starting from a cache just produced by a successful refresh,
getPublicKey for a kid present in the refreshed list returns the matching
key with zero further refresh attempts; for a kid absent from the list it
performs exactly one additional refresh attempt, and when that refresh
succeeds with a key list still lacking the kid the call fails with the
key-not-found error. -/
theorem getPublicKey_after_successful_refresh
    (o : KeysFetchOutcome) (cache0 keys : List JWK)
    (fetches : Nat → KeysFetchOutcome) (kid : String)
    (hrefresh : updatePublicKeys o cache0 = (.ok keys, keys)) :
    (∀ k, keys.find? (fun key => key.kid == kid) = some k →
        getPublicKey kid keys fetches = (.ok k, keys, 0)) ∧
    (keys.find? (fun key => key.kid == kid) = none →
        (getPublicKey kid keys fetches).2.2 = 1 ∧
        (∀ status L, fetches 0 = .response status L → statusOk status = true →
          L.isEmpty = false → L.find? (fun key => key.kid == kid) = none →
          getPublicKey kid keys fetches =
            (.error ⟨"Public key not found for the provided Key ID."⟩, L, 1))) := by
  have hne : keys ≠ [] :=
    (updatePublicKeys_ok o cache0 keys (by rw [hrefresh])).2
  have hie : keys.isEmpty = false := by
    cases keys with
    | nil => exact absurd rfl hne
    | cons a t => rfl
  constructor
  · intro k hk
    simp [getPublicKey, hie, hk]
  · intro hmiss
    constructor
    · simp only [getPublicKey, hie, Bool.false_eq_true, if_false, hmiss]
      rcases hu : updatePublicKeys (fetches 0) keys with ⟨r, c2⟩
      cases r with
      | error e => simp
      | ok ks2 =>
        cases hf : c2.find? (fun key => key.kid == kid) <;> simp [hf]
    · intro status L hfetch hstat hLne hLmiss
      have hupd : updatePublicKeys (fetches 0) keys = (.ok L, L) := by
        rw [hfetch]
        simp [updatePublicKeys, hstat, hLne]
      simp [getPublicKey, hie, hmiss, hupd, hLmiss]

/-- Fetch environment for the C5 witness: every refresh yields a fresh list. -/
def appleDemoFetches : Nat → KeysFetchOutcome :=
  fun _ => KeysFetchOutcome.response 200 [⟨"k2", "m2"⟩]

theorem getPublicKey_after_successful_refresh_witness :
    getPublicKey "k1" [⟨"k1", "m1"⟩] appleDemoFetches
      = (.ok ⟨"k1", "m1"⟩, [⟨"k1", "m1"⟩], 0) :=
  (getPublicKey_after_successful_refresh
      (KeysFetchOutcome.response 200 [⟨"k1", "m1"⟩]) [] [⟨"k1", "m1"⟩]
      appleDemoFetches "k1" rfl).1 ⟨"k1", "m1"⟩ rfl

/-- The Apple issuer constant APPLE_ISS. -/
def APPLE_ISS : String := "https://appleid.apple.com"

/-- AppleSignInCredentials. -/
structure AppleSignInCredentials where
  privateKey : String
  teamId : String
  keyId : String
  clientId : String
deriving DecidableEq

/-- The claim set of the signed client-secret assertion. -/
structure ClientSecretClaims where
  iss : String
  iat : Nat
  exp : Nat
  aud : String
  sub : String
deriving DecidableEq

/-- AppleAuthHandler.updateClientSecret builds this claim set at the current
time (seconds) and signs it with ES256 under the configured key id; the
signing capability is a boundary, so the embedded operation is the claim-set
construction. -/
def clientSecretClaims (credentials : AppleSignInCredentials) (currentTime : Nat) :
    ClientSecretClaims :=
  { iss := credentials.teamId
    iat := currentTime
    exp := currentTime + 60 * 60 * 24 * 30
    aud := APPLE_ISS
    sub := credentials.clientId }

/-- Claim C7: for every Apple credentials configuration and every generation
time, the generated client secret has issuer teamId, audience the Apple
provider issuer, subject clientId, and expiry exactly 30 days after issue
(exact equality, hence within the 1-second tolerance the claim allows). -/
theorem clientSecretClaims_fields (credentials : AppleSignInCredentials) (currentTime : Nat) :
    (clientSecretClaims credentials currentTime).iss = credentials.teamId ∧
    (clientSecretClaims credentials currentTime).aud = APPLE_ISS ∧
    (clientSecretClaims credentials currentTime).sub = credentials.clientId ∧
    (clientSecretClaims credentials currentTime).exp
      - (clientSecretClaims credentials currentTime).iat = 30 * 24 * 60 * 60 :=
  ⟨rfl, rfl, rfl, by simp [clientSecretClaims]⟩

/-- Fields of the Apple token-endpoint response body that retrieveToken
reads (id_token, refresh_token, access_token, token_type, expires_in). -/
structure AppleTokenBody where
  id_token : String
  refresh_token : String
  access_token : String
  token_type : String
  expires_in : String
deriving DecidableEq

/-- The decoded claims of an Apple identity token that validateUserCredentials
destructures; optional claims may be absent. -/
structure ApplePayload where
  iss : String
  sub : String
  aud : String
  email : Option String
  email_verified : Option Bool
  is_private_email : Option Bool
deriving DecidableEq

/-- Outcome of the jwtVerify boundary capability on the identity token:
either the verified payload or a verification failure (bad signature,
malformed token, expired). -/
inductive VerifyOutcome (π : Type) where
  | success (payload : π)
  | failure
deriving DecidableEq

/-- Environment of one Apple validateUserCredentials run: the token-exchange
response, the kid read from the identity token's protected header, the JWKS
fetch outcomes, and the signature-verification outcome. -/
structure AppleEnv where
  exchange : HttpOutcome AppleTokenBody
  headerKid : Option String
  fetches : Nat → KeysFetchOutcome
  verify : VerifyOutcome ApplePayload

/-- AppleAuthHandler.retrieveToken: requires the client secret to be set
(the not-initialized throw sits before the try block); a 200/201/204
response yields the token set; any other status or a transport failure is
caught and rethrown as the retrieve-failure error. -/
def appleRetrieveToken (clientSecret : Option String)
    (exchange : HttpOutcome AppleTokenBody) : Except AppleError AppleTokenBody :=
  match clientSecret with
  | none => .error ⟨"Client secret not set. Please call initialize() first."⟩
  | some _ =>
    match exchange with
    | .transportError => .error ⟨"Failed to retrieve token from Apple."⟩
    | .response status body _ =>
      if statusOk status then .ok body
      else .error ⟨"Failed to retrieve token from Apple."⟩

/-- AppleAuthHandler.decodeIdToken: fails if the public-key cache is empty or
the token header carries no kid; otherwise resolves the key via getPublicKey
(which may refresh the cache) and verifies the token signature. The jose
verification failure is modelled by a verification-failed error that, like
the real exception, is only ever observed through the caller's catch.
Returns (result, new cache, refresh attempts). -/
def appleDecodeIdToken (cache : List JWK) (headerKid : Option String)
    (fetches : Nat → KeysFetchOutcome) (verify : VerifyOutcome ApplePayload) :
    Except AppleError ApplePayload × List JWK × Nat :=
  if cache.isEmpty then
    (.error ⟨"Apple public keys not set. Please call initialize() first."⟩, cache, 0)
  else
    match headerKid with
    | none => (.error ⟨"Failed to decode token header."⟩, cache, 0)
    | some kid =>
      match getPublicKey kid cache fetches with
      | (.error e, c, n) => (.error e, c, n)
      | (.ok _, c, n) =>
        match verify with
        | .failure => (.error ⟨"jose: signature verification failed"⟩, c, n)
        | .success payload => (.ok payload, c, n)

/-- AppleAuthHandler.validateTokenProperties: issuer must contain the Apple
issuer, audience must equal the configured clientId, subject and the
email-verified claim must be truthy; the first failing check throws. -/
def appleValidateTokenProperties (clientId : String) (iss aud sub : String)
    (emailVerified : Option Bool) : Except AppleError Unit :=
  if !(jsIncludes iss APPLE_ISS) then .error ⟨"Token issuer is invalid."⟩
  else if aud != clientId then .error ⟨"Token audience is invalid."⟩
  else if !(truthyStr sub) then .error ⟨"Token subject is invalid."⟩
  else if !(truthyOptBool emailVerified) then .error ⟨"Email not verified."⟩
  else .ok ()

/-- The AppleUserRetrievedData record as declared in src/types: raw and
accessToken are required by the declared type, so they appear here as fields
the construction site may or may not fill (none models the field left
undefined by the object literal). -/
structure AppleUserRetrievedData where
  sub : String
  aud : String
  email : Option String
  emailVerified : Option Bool
  isPrivateEmail : Option Bool
  raw : Option ApplePayload
  accessToken : Option String
deriving DecidableEq

/-- The try block of AppleAuthHandler.validateUserCredentials: exchange the
code, decode and verify the identity token, validate its claims, and build
the returned record. The object literal at the return site carries only
aud, email, emailVerified, isPrivateEmail and sub — raw and accessToken are
not set. -/
def appleValidateBody (credentials : AppleSignInCredentials)
    (clientSecret : Option String) (cache : List JWK) (env : AppleEnv) :
    Except AppleError AppleUserRetrievedData × List JWK × Nat :=
  match appleRetrieveToken clientSecret env.exchange with
  | .error e => (.error e, cache, 0)
  | .ok _ =>
    match appleDecodeIdToken cache env.headerKid env.fetches env.verify with
    | (.error e, c, n) => (.error e, c, n)
    | (.ok payload, c, n) =>
      match appleValidateTokenProperties credentials.clientId
          payload.iss payload.aud payload.sub payload.email_verified with
      | .error e => (.error e, c, n)
      | .ok _ =>
        (.ok { sub := payload.sub
               aud := payload.aud
               email := payload.email
               emailVerified := payload.email_verified
               isPrivateEmail := payload.is_private_email
               raw := none
               accessToken := none }, c, n)

/-- AppleAuthHandler.validateUserCredentials: the catch block replaces any
failure of the try block by the generic validation-failure error. -/
def appleValidateUserCredentials (credentials : AppleSignInCredentials)
    (clientSecret : Option String) (cache : List JWK) (env : AppleEnv) :
    Except AppleError AppleUserRetrievedData × List JWK × Nat :=
  match appleValidateBody credentials clientSecret cache env with
  | (.error _, c, n) => (.error ⟨"User credentials validation failed."⟩, c, n)
  | (.ok r, c, n) => (.ok r, c, n)

/- ---------------------------------------------------------------------
Google validator (src/handlers/google-auth.handler.ts)
--------------------------------------------------------------------- -/

/-- GoogleSignInCredentials. -/
structure GoogleSignInCredentials where
  clientId : String
  clientSecret : String
deriving DecidableEq

/-- The Google identity-token payload fields the handler reads. -/
structure GooglePayload where
  iss : Option String
  aud : String
  sub : String
  email : Option String
  email_verified : Option Bool
  given_name : Option String
  family_name : Option String
  picture : Option String
deriving DecidableEq

/-- Outcome of OAuth2Client.verifyIdToken: a ticket whose payload is present,
a ticket without payload, or a thrown verification error. -/
inductive GoogleVerifyOutcome where
  | success (payload : GooglePayload)
  | noPayload
  | failure
deriving DecidableEq

/-- A GoogleAuthError: the class carries only a message. -/
structure GoogleError where
  message : String
deriving DecidableEq

/-- GoogleUserRetrievedData as built by decodeIdToken; email holds the value
of payload.email (checked truthy before the record is built). -/
structure GoogleUserRetrievedData where
  aud : String
  sub : String
  raw : GooglePayload
  email : Option String
  emailVerified : Bool
  firstName : Option String
  lastName : Option String
  avatar : Option String
deriving DecidableEq

/-- GoogleAuthHandler.isIssuerValid. -/
def googleIsIssuerValid (issuer : Option String) : Bool :=
  issuer == some "accounts.google.com" || issuer == some "https://accounts.google.com"

/-- GoogleAuthHandler.decodeIdToken: verify the token, then check issuer,
audience and email presence; the method's own catch wraps every failure
(including its own claim-check throws) into the decode-failure error. -/
def googleDecodeIdToken (credentials : GoogleSignInCredentials)
    (verify : GoogleVerifyOutcome) : Except GoogleError GoogleUserRetrievedData :=
  match verify with
  | .failure => .error ⟨"Failed to decode ID token."⟩
  | .noPayload => .error ⟨"Failed to decode ID token."⟩
  | .success payload =>
    if !(googleIsIssuerValid payload.iss) then .error ⟨"Failed to decode ID token."⟩
    else if payload.aud != credentials.clientId then .error ⟨"Failed to decode ID token."⟩
    else if !(truthyOptStr payload.email) then .error ⟨"Failed to decode ID token."⟩
    else .ok { aud := payload.aud
               sub := payload.sub
               raw := payload
               email := payload.email
               emailVerified := payload.email_verified.getD false
               firstName := payload.given_name
               lastName := payload.family_name
               avatar := payload.picture }

/-- The try block of GoogleAuthHandler.validateUserCredentials: decode, then
reject when the email-verified flag is false. -/
def googleValidateBody (credentials : GoogleSignInCredentials)
    (verify : GoogleVerifyOutcome) : Except GoogleError GoogleUserRetrievedData :=
  match googleDecodeIdToken credentials verify with
  | .error e => .error e
  | .ok decodedToken =>
    if !decodedToken.emailVerified then .error ⟨"Email is not verified."⟩
    else .ok decodedToken

/-- GoogleAuthHandler.validateUserCredentials: the catch block replaces any
failure of the try block by the generic validation-failure error. -/
def googleValidateUserCredentials (credentials : GoogleSignInCredentials)
    (verify : GoogleVerifyOutcome) : Except GoogleError GoogleUserRetrievedData :=
  match googleValidateBody credentials verify with
  | .error _ => .error ⟨"User credentials validation failed."⟩
  | .ok r => .ok r

/- ---------------------------------------------------------------------
X validator (src/handlers/x-auth.handler.ts)
--------------------------------------------------------------------- -/

/-- An XAuthError: message plus the optional status and response data the
constructor accepts. -/
structure XError where
  message : String
  status : Option Nat
  data : Option String
deriving DecidableEq

/-- Fields of the X token-endpoint response body the handler reads. -/
structure XTokenBody where
  refresh_token : Option String
  access_token : String
  scope : String
deriving DecidableEq

/-- Fields of the X userinfo response the handler reads: data.data.id plus
the (top-level) data.name and data.username. -/
structure XUserBody where
  id : String
  name : Option String
  username : Option String
deriving DecidableEq

/-- XUserRetrievedData as declared in src/types: raw, accessToken and
refreshToken are part of the declared type; the userinfo return site sets
only sub, name and username, leaving the rest undefined (none). -/
structure XUserRetrievedData where
  sub : String
  name : Option String
  username : Option String
  raw : Option String
  accessToken : Option String
  refreshToken : Option String
deriving DecidableEq

/-- Environment of one X validateUserCredentials run. The configured
credentials only shape the outbound requests (Basic auth header, redirect
URI), which are part of the HTTP boundary. -/
structure XEnv where
  exchange : HttpOutcome XTokenBody
  userinfo : HttpOutcome XUserBody

/-- The try block of XAuthHandler.exchangeAuthorizationCode: a 200/201/204
response yields the token set; any other status throws the HTTP-failure
error carrying the status and the raw response body. -/
def xExchangeInner (o : HttpOutcome XTokenBody) : Except XError XTokenBody :=
  match o with
  | .transportError => .error ⟨"AxiosError", none, none⟩
  | .response status body raw =>
    if statusOk status then .ok body
    else .error ⟨"Failed to execute HTTP request", some status, some raw⟩

/-- XAuthHandler.exchangeAuthorizationCode: its catch block logs the inner
error and rethrows a fresh XAuthError without status or data. -/
def xExchangeAuthorizationCode (o : HttpOutcome XTokenBody) : Except XError XTokenBody :=
  match xExchangeInner o with
  | .ok body => .ok body
  | .error _ => .error ⟨"Failed to retrieve token from X.", none, none⟩

/-- The try block of XAuthHandler.retrieveUserInfo. -/
def xRetrieveUserInfoInner (o : HttpOutcome XUserBody) : Except XError XUserRetrievedData :=
  match o with
  | .transportError => .error ⟨"AxiosError", none, none⟩
  | .response status body raw =>
    if statusOk status then
      .ok { sub := body.id
            name := body.name
            username := body.username
            raw := none
            accessToken := none
            refreshToken := none }
    else .error ⟨"Failed to execute HTTP request", some status, some raw⟩

/-- XAuthHandler.retrieveUserInfo: its catch rethrows without status/data. -/
def xRetrieveUserInfo (o : HttpOutcome XUserBody) : Except XError XUserRetrievedData :=
  match xRetrieveUserInfoInner o with
  | .ok u => .ok u
  | .error _ => .error ⟨"Failed to retrieve user info from X.", none, none⟩

/-- The try block of XAuthHandler.validateUserCredentials: exchange the code,
check the granted scope for users.read and tweet.read (JS substring
containment), and only then call the userinfo endpoint. The second
component counts userinfo HTTP requests performed in the run. -/
def xValidateBody (env : XEnv) : Except XError XUserRetrievedData × Nat :=
  match xExchangeAuthorizationCode env.exchange with
  | .error e => (.error e, 0)
  | .ok userCredentials =>
    if !(jsIncludes userCredentials.scope "users.read")
        || !(jsIncludes userCredentials.scope "tweet.read") then
      (.error ⟨"Invalid scope. Required scopes are not granted. Required scopes: users.read, tweet.read", none, none⟩, 0)
    else
      match xRetrieveUserInfo env.userinfo with
      | .error e => (.error e, 1)
      | .ok userInfo => (.ok userInfo, 1)

/-- XAuthHandler.validateUserCredentials: the catch block replaces any
failure of the try block by the generic validation-failure error. -/
def xValidateUserCredentials (env : XEnv) : Except XError XUserRetrievedData × Nat :=
  match xValidateBody env with
  | (.error _, n) => (.error ⟨"User credentials validation failed.", none, none⟩, n)
  | (.ok r, n) => (.ok r, n)

/- ---------------------------------------------------------------------
LinkedIn validator (src/handlers/linkedin-auth.handler.ts)
--------------------------------------------------------------------- -/

/-- LinkedInSignInCredentials. -/
structure LinkedInSignInCredentials where
  clientId : String
  clientSecret : String
  redirectURI : String
deriving DecidableEq

/-- A LinkedInAuthError as observable after the handler's catch blocks. -/
structure LinkedInError where
  message : String
deriving DecidableEq

/-- Fields of the LinkedIn token-endpoint response body the handler reads. -/
structure LinkedInTokenBody where
  access_token : String
  expires_in : Nat
  id_token : String
  token_type : String
  scope : String
deriving DecidableEq

/-- The decoded claims of a LinkedIn identity token the handler reads. -/
structure LinkedInPayload where
  iss : String
  sub : String
  aud : String
  email : Option String
  email_verified : Option Bool
  given_name : Option String
  family_name : Option String
  name : Option String
  picture : Option String
  locale : Option String
deriving DecidableEq

/-- LinkedInUserRetrievedData as built by retrieveUserInfo (raw is set to
the whole decoded payload). -/
structure LinkedInUserRetrievedData where
  sub : String
  raw : LinkedInPayload
  email : Option String
  emailVerified : Bool
  name : Option String
  firstName : Option String
  lastName : Option String
  avatar : Option String
  accessToken : String
deriving DecidableEq

/-- Environment of one LinkedIn validateUserCredentials run: the
token-exchange response and the outcome of jwtVerify against the remote
JWKS (jose also enforces the issuer option there; a mismatch surfaces as a
verification failure). -/
structure LinkedInEnv where
  exchange : HttpOutcome LinkedInTokenBody
  decode : VerifyOutcome LinkedInPayload

/-- The LinkedIn issuer constant LINKEDIN_ISS. -/
def LINKEDIN_ISS : String := "https://www.linkedin.com/oauth"

/-- LinkedInAuthHandler.isIssuerValid. -/
def linkedInIsIssuerValid (issuer : String) : Bool := issuer == LINKEDIN_ISS

/-- LinkedInAuthHandler.exchangeAuthorizationCode: a 200/201/204 response
yields the token set; anything else is caught and rethrown as the
retrieve-failure error. -/
def linkedInExchangeAuthorizationCode (o : HttpOutcome LinkedInTokenBody) :
    Except LinkedInError LinkedInTokenBody :=
  match o with
  | .transportError => .error ⟨"Failed to retrieve token from Linkedin."⟩
  | .response status body _ =>
    if statusOk status then .ok body
    else .error ⟨"Failed to retrieve token from Linkedin."⟩

/-- LinkedInAuthHandler.retrieveUserInfo: decode the identity token, check
issuer, audience and subject, and build the record; the method's own catch
wraps every failure (including its claim-check throws) into the
decode-failure error. -/
def linkedInRetrieveUserInfo (credentials : LinkedInSignInCredentials)
    (codeExchangeData : LinkedInTokenBody) (decode : VerifyOutcome LinkedInPayload) :
    Except LinkedInError LinkedInUserRetrievedData :=
  match decode with
  | .failure => .error ⟨"Failed to decode ID token."⟩
  | .success decodedToken =>
    if !(linkedInIsIssuerValid decodedToken.iss) then .error ⟨"Failed to decode ID token."⟩
    else if decodedToken.aud != credentials.clientId then .error ⟨"Failed to decode ID token."⟩
    else if !(truthyStr decodedToken.sub) then .error ⟨"Failed to decode ID token."⟩
    else .ok { sub := decodedToken.sub
               raw := decodedToken
               email := decodedToken.email
               emailVerified := decodedToken.email_verified.getD false
               name := decodedToken.name
               firstName := decodedToken.given_name
               lastName := decodedToken.family_name
               avatar := decodedToken.picture
               accessToken := codeExchangeData.access_token }

/-- The try block of LinkedInAuthHandler.validateUserCredentials: exchange
the code, require the openid scope, then decode and validate. -/
def linkedInValidateBody (credentials : LinkedInSignInCredentials)
    (env : LinkedInEnv) : Except LinkedInError LinkedInUserRetrievedData :=
  match linkedInExchangeAuthorizationCode env.exchange with
  | .error e => .error e
  | .ok userCredentials =>
    if !(jsIncludes userCredentials.scope "openid") then
      .error ⟨"OpenID not found in scope."⟩
    else linkedInRetrieveUserInfo credentials userCredentials env.decode

/-- LinkedInAuthHandler.validateUserCredentials: the catch block replaces
any failure of the try block by the generic validation-failure error. -/
def linkedInValidateUserCredentials (credentials : LinkedInSignInCredentials)
    (env : LinkedInEnv) : Except LinkedInError LinkedInUserRetrievedData :=
  match linkedInValidateBody credentials env with
  | .error _ => .error ⟨"User credentials validation failed."⟩
  | .ok r => .ok r

/- ---------------------------------------------------------------------
SnapChat validator (src/handlers/snapchat-auth.handler.ts)
--------------------------------------------------------------------- -/

/-- A SnapChatAuthError as observable after the handler's catch blocks. -/
structure SnapChatError where
  message : String
deriving DecidableEq

/-- Fields of the SnapChat token-endpoint response body the handler reads. -/
structure SnapChatTokenBody where
  refresh_token : Option String
  access_token : String
  scope : String
  token_type : String
  expires_in : Nat
deriving DecidableEq

/-- Fields of the SnapChat userinfo response the handler reads
(data.data.me.externalId, data.data.me.displayName,
data.data.me.bitmoji.avatar); raw is set to data.data. -/
structure SnapChatUserBody where
  externalId : String
  displayName : String
  avatar : String
deriving DecidableEq

/-- SnapChatUserRetrievedData as built by retrieveUserInfo. -/
structure SnapChatUserRetrievedData where
  sub : String
  displayName : String
  raw : SnapChatUserBody
  avatar : String
  accessToken : String
  refreshToken : Option String
  expiresIn : Nat
deriving DecidableEq

/-- Environment of one SnapChat validateUserCredentials run. -/
structure SnapChatEnv where
  exchange : HttpOutcome SnapChatTokenBody
  userinfo : HttpOutcome SnapChatUserBody

/-- SnapChatAuthHandler.exchangeAuthorizationCode: a 200/201/204 response
yields the token set; anything else is caught and rethrown as the
retrieve-failure error. -/
def snapChatExchangeAuthorizationCode (o : HttpOutcome SnapChatTokenBody) :
    Except SnapChatError SnapChatTokenBody :=
  match o with
  | .transportError => .error ⟨"Failed to retrieve token from SnapChat."⟩
  | .response status body _ =>
    if statusOk status then .ok body
    else .error ⟨"Failed to retrieve token from SnapChat."⟩

/-- SnapChatAuthHandler.retrieveUserInfo: posts the me query and builds the
record from the response without any claim, scope or subject checks. -/
def snapChatRetrieveUserInfo (tokenData : SnapChatTokenBody)
    (o : HttpOutcome SnapChatUserBody) :
    Except SnapChatError SnapChatUserRetrievedData :=
  match o with
  | .transportError => .error ⟨"Failed to retrieve user info from SnapChat."⟩
  | .response status body _ =>
    if statusOk status then
      .ok { sub := body.externalId
            displayName := body.displayName
            raw := body
            avatar := body.avatar
            accessToken := tokenData.access_token
            refreshToken := tokenData.refresh_token
            expiresIn := tokenData.expires_in }
    else .error ⟨"Failed to retrieve user info from SnapChat."⟩

/-- The try block of SnapChatAuthHandler.validateUserCredentials: exchange
the code, then immediately retrieve user info — no scope or claim checks
sit between the two steps or after them. The second component counts
userinfo HTTP requests performed. -/
def snapChatValidateBody (env : SnapChatEnv) :
    Except SnapChatError SnapChatUserRetrievedData × Nat :=
  match snapChatExchangeAuthorizationCode env.exchange with
  | .error e => (.error e, 0)
  | .ok userCredentials =>
    match snapChatRetrieveUserInfo userCredentials env.userinfo with
    | .error e => (.error e, 1)
    | .ok userInfo => (.ok userInfo, 1)

/-- SnapChatAuthHandler.validateUserCredentials: the catch block replaces
any failure of the try block by the generic validation-failure error. -/
def snapChatValidateUserCredentials (env : SnapChatEnv) :
    Except SnapChatError SnapChatUserRetrievedData × Nat :=
  match snapChatValidateBody env with
  | (.error _, n) => (.error ⟨"User credentials validation failed."⟩, n)
  | (.ok r, n) => (.ok r, n)

/-- Claim C9: a Google identity token whose email_verified claim is false is
rejected even when issuer, audience and email presence are all valid: the
try block of validateUserCredentials raises the email-not-verified claim
error, and the method surfaces its provider-named failure instead of
returning a record. -/
theorem google_email_unverified_rejected
    (credentials : GoogleSignInCredentials) (payload : GooglePayload)
    (hiss : googleIsIssuerValid payload.iss = true)
    (haud : payload.aud = credentials.clientId)
    (hemail : truthyOptStr payload.email = true)
    (hver : payload.email_verified = some false) :
    googleValidateBody credentials (.success payload)
      = .error ⟨"Email is not verified."⟩ ∧
    googleValidateUserCredentials credentials (.success payload)
      = .error ⟨"User credentials validation failed."⟩ := by
  have hbody : googleValidateBody credentials (.success payload)
      = .error ⟨"Email is not verified."⟩ := by
    simp [googleValidateBody, googleDecodeIdToken, hiss, haud, hemail, hver]
  refine ⟨hbody, ?_⟩
  simp [googleValidateUserCredentials, hbody]

/-- Google demo payload for the C9 witness: everything valid except the
email-verified flag. -/
def googleDemoPayload : GooglePayload :=
  ⟨some "accounts.google.com", "client-google", "google-user-1",
   some "u@example.com", some false, some "Ada", some "L", none⟩

theorem google_email_unverified_rejected_witness :
    googleValidateUserCredentials ⟨"client-google", "sec"⟩
        (.success googleDemoPayload)
      = .error ⟨"User credentials validation failed."⟩ :=
  (google_email_unverified_rejected ⟨"client-google", "sec"⟩ googleDemoPayload
    (by decide) rfl (by decide) rfl).2

/-- Claim C10: an Apple identity token whose email_verified claim is false
or absent is rejected even when issuer, audience and subject are valid: the
claim validation raises the email-not-verified error and
validateUserCredentials surfaces its provider-named failure instead of
returning a record. -/
theorem apple_email_unverified_rejected
    (credentials : AppleSignInCredentials) (secret : String) (cache : List JWK)
    (env : AppleEnv) (status : Nat) (tok : AppleTokenBody) (raw : String)
    (kid : String) (key : JWK) (payload : ApplePayload)
    (hex : env.exchange = .response status tok raw)
    (hst : statusOk status = true)
    (hne : cache.isEmpty = false)
    (hkid : env.headerKid = some kid)
    (hfound : cache.find? (fun k => k.kid == kid) = some key)
    (hverify : env.verify = .success payload)
    (hiss : jsIncludes payload.iss APPLE_ISS = true)
    (haud : payload.aud = credentials.clientId)
    (hsub : truthyStr payload.sub = true)
    (hver : truthyOptBool payload.email_verified = false) :
    appleValidateBody credentials (some secret) cache env
      = (.error ⟨"Email not verified."⟩, cache, 0) ∧
    appleValidateUserCredentials credentials (some secret) cache env
      = (.error ⟨"User credentials validation failed."⟩, cache, 0) := by
  have hbody : appleValidateBody credentials (some secret) cache env
      = (.error ⟨"Email not verified."⟩, cache, 0) := by
    simp [appleValidateBody, appleRetrieveToken, hex, hst,
      appleDecodeIdToken, hne, hkid, getPublicKey, hfound, hverify,
      appleValidateTokenProperties, hiss, haud, hsub, hver]
  refine ⟨hbody, ?_⟩
  simp [appleValidateUserCredentials, hbody]

/-- Apple demo payload for the C10 witness: issuer, audience and subject
valid; the email_verified claim absent. -/
def appleDemoUnverifiedPayload : ApplePayload :=
  ⟨"https://appleid.apple.com", "apple-user-1", "client-apple",
   some "u@example.com", none, some false⟩

/-- Apple demo environment for the C10 witness. -/
def appleDemoUnverifiedEnv : AppleEnv :=
  { exchange := .response 200 ⟨"id-token", "rt", "at", "Bearer", "3600"⟩ "raw-body"
    headerKid := some "kid-1"
    fetches := fun _ => .transportError
    verify := .success appleDemoUnverifiedPayload }

theorem apple_email_unverified_rejected_witness :
    appleValidateUserCredentials ⟨"PK", "TEAM1", "KEY1", "client-apple"⟩
        (some "secret") [⟨"kid-1", "m1"⟩] appleDemoUnverifiedEnv
      = (.error ⟨"User credentials validation failed."⟩, [⟨"kid-1", "m1"⟩], 0) :=
  (apple_email_unverified_rejected ⟨"PK", "TEAM1", "KEY1", "client-apple"⟩
    "secret" [⟨"kid-1", "m1"⟩] appleDemoUnverifiedEnv 200
    ⟨"id-token", "rt", "at", "Bearer", "3600"⟩ "raw-body" "kid-1" ⟨"kid-1", "m1"⟩
    appleDemoUnverifiedPayload rfl rfl rfl rfl (by decide) rfl (by decide)
    rfl (by decide) rfl).2

/-- Claim C8: whenever the X token exchange succeeds but the granted scope
does not contain users.read (for instance a scope of just tweet.read), the
try block of validateUserCredentials raises the insufficient-scope error
before retrieveUserInfo runs: the run performs zero userinfo HTTP requests
and surfaces the provider-named validation failure instead of a record. -/
theorem x_missing_scope_rejected_before_userinfo
    (env : XEnv) (status : Nat) (body : XTokenBody) (raw : String)
    (hex : env.exchange = .response status body raw)
    (hst : statusOk status = true)
    (hscope : jsIncludes body.scope "users.read" = false) :
    xValidateBody env
      = (.error ⟨"Invalid scope. Required scopes are not granted. Required scopes: users.read, tweet.read", none, none⟩, 0) ∧
    xValidateUserCredentials env
      = (.error ⟨"User credentials validation failed.", none, none⟩, 0) := by
  have hbody : xValidateBody env
      = (.error ⟨"Invalid scope. Required scopes are not granted. Required scopes: users.read, tweet.read", none, none⟩, 0) := by
    simp [xValidateBody, xExchangeAuthorizationCode, xExchangeInner, hex, hst, hscope]
  refine ⟨hbody, ?_⟩
  simp [xValidateUserCredentials, hbody]

/-- X demo environment for the C8 witness: the exchange grants only
tweet.read; the userinfo outcome is irrelevant because it is never
requested. -/
def xDemoScopeEnv : XEnv :=
  { exchange := .response 200 ⟨some "rt", "access-1", "tweet.read"⟩ "raw-ok"
    userinfo := .transportError }

theorem x_missing_scope_rejected_before_userinfo_witness :
    xValidateUserCredentials xDemoScopeEnv
      = (.error ⟨"User credentials validation failed.", none, none⟩, 0) :=
  (x_missing_scope_rejected_before_userinfo xDemoScopeEnv 200
    ⟨some "rt", "access-1", "tweet.read"⟩ "raw-ok" rfl rfl (by decide)).2

/-- X demo environment whose token exchange returns HTTP 401 with a raw
error body. -/
def xDemo401Env : XEnv :=
  { exchange := .response 401 ⟨none, "", ""⟩ "x-401-body"
    userinfo := .transportError }

/-- Claim C4 counterexample: with a 401 token-exchange response, the inner
throw does carry status 401 and the raw body, but the error surfaced by
validateUserCredentials is the provider's generic validation failure with
no status and no data — the structured context of the original failure is
not preserved on the error the caller receives. -/
theorem x_exchange_401_context_discarded :
    xExchangeInner xDemo401Env.exchange
      = .error ⟨"Failed to execute HTTP request", some 401, some "x-401-body"⟩ ∧
    xExchangeAuthorizationCode xDemo401Env.exchange
      = .error ⟨"Failed to retrieve token from X.", none, none⟩ ∧
    xValidateUserCredentials xDemo401Env
      = (.error ⟨"User credentials validation failed.", none, none⟩, 0) :=
  ⟨rfl, rfl, rfl⟩

/-- Claim C4 as amended: a non-success token-exchange status makes
validateUserCredentials fail with the provider-named XAuthError (never a
record), with zero userinfo requests and no cache touched (the X handler
keeps no cache); the HTTP status and raw body appear only on the error
thrown inside the exchange try block — each enclosing catch rethrows a
fresh error without them, so the surfaced error carries none. -/
theorem x_exchange_failure_surfaces_wrapped_error
    (env : XEnv) (status : Nat) (body : XTokenBody) (raw : String)
    (hex : env.exchange = .response status body raw)
    (hst : statusOk status = false) :
    xExchangeInner env.exchange
      = .error ⟨"Failed to execute HTTP request", some status, some raw⟩ ∧
    xExchangeAuthorizationCode env.exchange
      = .error ⟨"Failed to retrieve token from X.", none, none⟩ ∧
    xValidateUserCredentials env
      = (.error ⟨"User credentials validation failed.", none, none⟩, 0) := by
  have hinner : xExchangeInner env.exchange
      = .error ⟨"Failed to execute HTTP request", some status, some raw⟩ := by
    simp [xExchangeInner, hex, hst]
  have hx : xExchangeAuthorizationCode env.exchange
      = .error ⟨"Failed to retrieve token from X.", none, none⟩ := by
    simp [xExchangeAuthorizationCode, hinner]
  refine ⟨hinner, hx, ?_⟩
  simp [xValidateUserCredentials, xValidateBody, hx]

theorem x_exchange_failure_surfaces_wrapped_error_witness :
    xValidateUserCredentials xDemo401Env
      = (.error ⟨"User credentials validation failed.", none, none⟩, 0) :=
  (x_exchange_failure_surfaces_wrapped_error xDemo401Env 401 ⟨none, "", ""⟩
    "x-401-body" rfl rfl).2.2

/-- Apple demo payload for a fully successful validation run. -/
def appleDemoOkPayload : ApplePayload :=
  ⟨"https://appleid.apple.com", "apple-user-1", "client-apple",
   some "u@example.com", some true, some false⟩

/-- Apple demo environment for a fully successful validation run. -/
def appleDemoOkEnv : AppleEnv :=
  { exchange := .response 200 ⟨"id-token", "rt", "at", "Bearer", "3600"⟩ "raw-body"
    headerKid := some "kid-1"
    fetches := fun _ => .transportError
    verify := .success appleDemoOkPayload }

/-- X demo environment for a fully successful validation run. -/
def xDemoOkEnv : XEnv :=
  { exchange := .response 200 ⟨some "rt", "access-1", "users.read tweet.read"⟩ "raw-1"
    userinfo := .response 200 ⟨"x-user-1", some "Name", some "handle"⟩ "raw-2" }

/-- Claim C3 (code bug): on fully successful validation runs the Apple and X
handlers return records whose raw field (required by their own declared
types AppleUserRetrievedData and XUserRetrievedData) is left unset — the
object literals at the return sites carry no raw (and no accessToken), so
the raw payload cannot round-trip the provider's original claims; the X
record's sub is also copied from the userinfo body without any non-empty
check. -/
theorem successful_records_lack_raw_payload :
    appleValidateUserCredentials ⟨"PK", "TEAM1", "KEY1", "client-apple"⟩
        (some "secret") [⟨"kid-1", "m1"⟩] appleDemoOkEnv
      = (.ok { sub := "apple-user-1"
               aud := "client-apple"
               email := some "u@example.com"
               emailVerified := some true
               isPrivateEmail := some false
               raw := none
               accessToken := none }, [⟨"kid-1", "m1"⟩], 0) ∧
    xValidateUserCredentials xDemoOkEnv
      = (.ok { sub := "x-user-1"
               name := some "Name"
               username := some "handle"
               raw := none
               accessToken := none
               refreshToken := none }, 1) := by
  constructor
  · rfl
  · rfl

/-- SnapChat demo environment: exchange and userinfo succeed, but the
userinfo body carries an empty externalId. -/
def snapDemoEnv : SnapChatEnv :=
  { exchange := .response 200 ⟨some "rt", "access-1", "", "Bearer", 3600⟩ "r1"
    userinfo := .response 200 ⟨"", "Display", "avatar-url"⟩ "r2" }

/-- The record the SnapChat handler returns for snapDemoEnv. -/
def snapDemoRecord : SnapChatUserRetrievedData :=
  ⟨"", "Display", ⟨"", "Display", "avatar-url"⟩, "avatar-url", "access-1", some "rt", 3600⟩

/-- Claim C2 counterexample: the SnapChat handler returns a
NormalizedUserRecord whose subject is empty — no subject-presence check (and
no issuer, audience or scope check) guards the return, so a record is
returned although the subject-present-and-non-empty check never passed. -/
theorem snapchat_returns_record_without_subject_check :
    snapChatValidateUserCredentials snapDemoEnv = (.ok snapDemoRecord, 1) ∧
    snapDemoRecord.sub = "" :=
  ⟨rfl, rfl⟩

theorem truthyOptBool_eq_true_iff (o : Option Bool) :
    truthyOptBool o = true ↔ o = some true := by
  cases o with
  | none => simp [truthyOptBool]
  | some b => cases b <;> simp [truthyOptBool]

theorem truthyStr_eq_true_iff (s : String) : truthyStr s = true ↔ s ≠ "" := by
  simp [truthyStr]

theorem apple_ok_implies_checks
    (credentials : AppleSignInCredentials) (secret : Option String)
    (cache : List JWK) (env : AppleEnv) (r : AppleUserRetrievedData)
    (c : List JWK) (n : Nat)
    (h : appleValidateUserCredentials credentials secret cache env = (.ok r, c, n)) :
    ∃ payload, env.verify = .success payload ∧
      jsIncludes payload.iss APPLE_ISS = true ∧
      payload.aud = credentials.clientId ∧
      payload.sub ≠ "" ∧
      payload.email_verified = some true ∧
      r.sub = payload.sub := by
  unfold appleValidateUserCredentials at h
  rcases hb : appleValidateBody credentials secret cache env with ⟨res, c1, n1⟩
  rw [hb] at h
  cases res with
  | error e => simp at h
  | ok r1 =>
    simp only [Prod.mk.injEq, Except.ok.injEq] at h
    obtain ⟨hr, hc, hn⟩ := h
    subst hr
    subst hc
    subst hn
    unfold appleValidateBody at hb
    rcases hrt : appleRetrieveToken secret env.exchange with e | tok
    · rw [hrt] at hb
      simp at hb
    · rw [hrt] at hb
      rcases hd : appleDecodeIdToken cache env.headerKid env.fetches env.verify with ⟨dres, c2, n2⟩
      rw [hd] at hb
      cases dres with
      | error e => simp at hb
      | ok payload =>
        dsimp only at hb
        rcases hv : appleValidateTokenProperties credentials.clientId
            payload.iss payload.aud payload.sub payload.email_verified with e | u
        · rw [hv] at hb
          simp at hb
        · rw [hv] at hb
          simp only [Prod.mk.injEq, Except.ok.injEq] at hb
          obtain ⟨hrec, -, -⟩ := hb
          have hverify : env.verify = .success payload := by
            unfold appleDecodeIdToken at hd
            split at hd
            · simp at hd
            · split at hd
              · simp at hd
              · split at hd
                · simp at hd
                · split at hd
                  · simp at hd
                  · rename_i hveq
                    simp only [Prod.mk.injEq, Except.ok.injEq] at hd
                    rw [hveq, hd.1]
          have hchecks : jsIncludes payload.iss APPLE_ISS = true ∧
              payload.aud = credentials.clientId ∧
              payload.sub ≠ "" ∧
              payload.email_verified = some true := by
            unfold appleValidateTokenProperties at hv
            split at hv
            · simp at hv
            · split at hv
              · simp at hv
              · split at hv
                · simp at hv
                · split at hv
                  · simp at hv
                  · rename_i h1 h2 h3 h4
                    refine ⟨by simpa using h1, by simpa using h2, ?_, ?_⟩
                    · have := (truthyStr_eq_true_iff payload.sub).mp (by simpa using h3)
                      exact this
                    · exact (truthyOptBool_eq_true_iff payload.email_verified).mp
                        (by simpa using h4)
          exact ⟨payload, hverify, hchecks.1, hchecks.2.1, hchecks.2.2.1,
            hchecks.2.2.2, by rw [← hrec]⟩

theorem google_ok_implies_checks
    (credentials : GoogleSignInCredentials) (verify : GoogleVerifyOutcome)
    (r : GoogleUserRetrievedData)
    (h : googleValidateUserCredentials credentials verify = .ok r) :
    ∃ payload, verify = .success payload ∧
      googleIsIssuerValid payload.iss = true ∧
      payload.aud = credentials.clientId ∧
      truthyOptStr payload.email = true ∧
      payload.email_verified = some true ∧
      r.sub = payload.sub := by
  unfold googleValidateUserCredentials at h
  rcases hb : googleValidateBody credentials verify with e | r1
  · rw [hb] at h
    simp at h
  · rw [hb] at h
    simp only [Except.ok.injEq] at h
    subst h
    unfold googleValidateBody at hb
    rcases hd : googleDecodeIdToken credentials verify with e | d
    · rw [hd] at hb
      simp at hb
    · rw [hd] at hb
      dsimp only at hb
      by_cases hev : d.emailVerified = true
    
      · rw [if_neg (by simp [hev])] at hb
        simp only [Except.ok.injEq] at hb
        subst hb
        unfold googleDecodeIdToken at hd
        cases verify with
        | failure => simp at hd
        | noPayload => simp at hd
        | success payload =>
          dsimp only at hd
          split at hd
          · simp at hd
          · split at hd
            · simp at hd
            · split at hd
              · simp at hd
              · rename_i h1 h2 h3
                simp only [Except.ok.injEq] at hd
                subst hd
                refine ⟨payload, rfl, by simpa using h1, by simpa using h2,
                  by simpa using h3, ?_, rfl⟩
                rcases hvo : payload.email_verified with _ | b
                · rw [hvo] at hev
                  simp at hev
                · rw [hvo] at hev
                  simp only [Option.getD_some] at hev
                  rw [hev]
      · rw [if_pos (by simp [Bool.not_eq_true] at hev ⊢; exact hev)] at hb
        simp at hb

theorem linkedin_ok_implies_checks
    (credentials : LinkedInSignInCredentials) (env : LinkedInEnv)
    (r : LinkedInUserRetrievedData)
    (h : linkedInValidateUserCredentials credentials env = .ok r) :
    ∃ tok payload, linkedInExchangeAuthorizationCode env.exchange = .ok tok ∧
      jsIncludes tok.scope "openid" = true ∧
      env.decode = .success payload ∧
      payload.iss = LINKEDIN_ISS ∧
      payload.aud = credentials.clientId ∧
      payload.sub ≠ "" ∧
      r.sub = payload.sub := by
  unfold linkedInValidateUserCredentials at h
  rcases hb : linkedInValidateBody credentials env with e | r1
  · rw [hb] at h
    simp at h
  · rw [hb] at h
    simp only [Except.ok.injEq] at h
    subst h
    unfold linkedInValidateBody at hb
    rcases hx : linkedInExchangeAuthorizationCode env.exchange with e | tok
    · rw [hx] at hb
      simp at hb
    · rw [hx] at hb
      dsimp only at hb
      by_cases hsc : jsIncludes tok.scope "openid" = true
      · rw [if_neg (by simp [hsc])] at hb
        unfold linkedInRetrieveUserInfo at hb
        cases hdec : env.decode with
        | failure =>
          rw [hdec] at hb
          simp at hb
        | success payload =>
          rw [hdec] at hb
          dsimp only at hb
          split at hb
          · simp at hb
          · split at hb
            · simp at hb
            · split at hb
              · simp at hb
              · rename_i h1 h2 h3
                simp only [Except.ok.injEq] at hb
                subst hb
                refine ⟨tok, payload, rfl, hsc, rfl, ?_, by simpa using h2,
                  ?_, rfl⟩
                · have h1a : linkedInIsIssuerValid payload.iss = true := by
                    simpa using h1
                  simpa [linkedInIsIssuerValid] using h1a
                · have h3a : truthyStr payload.sub = true := by simpa using h3
                  exact (truthyStr_eq_true_iff payload.sub).mp h3a
      · simp only [Bool.not_eq_true] at hsc
        rw [if_pos (by simp [hsc])] at hb
        simp at hb

theorem x_ok_implies_scope_checks
    (env : XEnv) (r : XUserRetrievedData) (n : Nat)
    (h : xValidateUserCredentials env = (.ok r, n)) :
    ∃ tok, xExchangeAuthorizationCode env.exchange = .ok tok ∧
      jsIncludes tok.scope "users.read" = true ∧
      jsIncludes tok.scope "tweet.read" = true := by
  unfold xValidateUserCredentials at h
  rcases hb : xValidateBody env with ⟨res, n1⟩
  rw [hb] at h
  cases res with
  | error e => simp at h
  | ok r1 =>
    unfold xValidateBody at hb
    rcases hx : xExchangeAuthorizationCode env.exchange with e | tok
    · rw [hx] at hb
      simp at hb
    · rw [hx] at hb
      dsimp only at hb
      split at hb
      · simp at hb
      · rename_i hcond
        have hcond2 : jsIncludes tok.scope "users.read" = true ∧
            jsIncludes tok.scope "tweet.read" = true := by
          rcases ha : jsIncludes tok.scope "users.read" with _ | _ <;>
            rcases hbt : jsIncludes tok.scope "tweet.read" with _ | _ <;>
            simp [ha, hbt] at hcond ⊢
        exact ⟨tok, rfl, hcond2.1, hcond2.2⟩

/-- Claim C2 (amended): the providers that validate claims only return a
record after their checks pass — Apple (issuer contains the Apple issuer,
audience equals the configured clientId, subject non-empty, email-verified
true), Google (issuer in the Google issuer set, audience equals clientId,
email present, email-verified true) and LinkedIn (openid scope granted,
issuer equals the LinkedIn issuer, audience equals clientId, subject
non-empty); X only checks the required scopes before its userinfo call;
SnapChat (see the counterexample) performs no claim checks at all and can
return a record with an empty subject. -/
theorem validated_records_pass_provider_checks :
    (∀ (credentials : AppleSignInCredentials) (secret : Option String)
        (cache : List JWK) (env : AppleEnv) (r : AppleUserRetrievedData)
        (c : List JWK) (n : Nat),
      appleValidateUserCredentials credentials secret cache env = (.ok r, c, n) →
      ∃ payload, env.verify = .success payload ∧
        jsIncludes payload.iss APPLE_ISS = true ∧
        payload.aud = credentials.clientId ∧
        payload.sub ≠ "" ∧
        payload.email_verified = some true ∧
        r.sub = payload.sub) ∧
    (∀ (credentials : GoogleSignInCredentials) (verify : GoogleVerifyOutcome)
        (r : GoogleUserRetrievedData),
      googleValidateUserCredentials credentials verify = .ok r →
      ∃ payload, verify = .success payload ∧
        googleIsIssuerValid payload.iss = true ∧
        payload.aud = credentials.clientId ∧
        truthyOptStr payload.email = true ∧
        payload.email_verified = some true ∧
        r.sub = payload.sub) ∧
    (∀ (credentials : LinkedInSignInCredentials) (env : LinkedInEnv)
        (r : LinkedInUserRetrievedData),
      linkedInValidateUserCredentials credentials env = .ok r →
      ∃ tok payload, linkedInExchangeAuthorizationCode env.exchange = .ok tok ∧
        jsIncludes tok.scope "openid" = true ∧
        env.decode = .success payload ∧
        payload.iss = LINKEDIN_ISS ∧
        payload.aud = credentials.clientId ∧
        payload.sub ≠ "" ∧
        r.sub = payload.sub) ∧
    (∀ (env : XEnv) (r : XUserRetrievedData) (n : Nat),
      xValidateUserCredentials env = (.ok r, n) →
      ∃ tok, xExchangeAuthorizationCode env.exchange = .ok tok ∧
        jsIncludes tok.scope "users.read" = true ∧
        jsIncludes tok.scope "tweet.read" = true) :=
  ⟨apple_ok_implies_checks, google_ok_implies_checks,
   linkedin_ok_implies_checks, x_ok_implies_scope_checks⟩

/-- The record the Apple handler returns for appleDemoOkEnv. -/
def appleDemoOkRecord : AppleUserRetrievedData :=
  ⟨"apple-user-1", "client-apple", some "u@example.com", some true,
   some false, none, none⟩

theorem validated_records_pass_provider_checks_witness :
    ∃ payload, appleDemoOkEnv.verify = VerifyOutcome.success payload ∧
      jsIncludes payload.iss APPLE_ISS = true ∧
      payload.aud = "client-apple" ∧
      payload.sub ≠ "" ∧
      payload.email_verified = some true ∧
      appleDemoOkRecord.sub = payload.sub :=
  validated_records_pass_provider_checks.1
    ⟨"PK", "TEAM1", "KEY1", "client-apple"⟩ (some "secret")
    [⟨"kid-1", "m1"⟩] appleDemoOkEnv appleDemoOkRecord
    [⟨"kid-1", "m1"⟩] 0 rfl
